import Mathlib

/-!
Verification of the `quart_wtf.meta` module (FormConfig / `QuartFormMeta`):
a shallow embedding of the configuration accessors, the CSRF token lifecycle
and the translation lookup of `src/quart_wtf/meta.py`, with theorems about
the spec-level properties of the component.

Conventions of the embedding:
* `current_app` (the ambient per-request application) is an explicit
  `QuartApp` argument; `current_app.config.get(key, default)` becomes an
  `Option` field of `AppConfig` with `none` for an absent key.
* The per-request flag `g.get("csrf_valid", False)` becomes an explicit
  `Bool` argument (`false` covers both an absent and a false entry).
* A Python `ValidationError` / `KeyError` becomes the `.error` branch of an
  `Except String` value carrying the human-readable message.
* The module-level mutable `translations` object of `quart_wtf.i18n` is
  threaded as explicit state (its `domain` attribute) through
  `get_translations`, and the `logger.info` side effect of
  `validate_csrf_token` is returned as an explicit list of logged messages.
-/

namespace QuartWtf

/-- Modelled from the spec: the opaque Babel domain handle
(`Babel_Domain` of `quart_wtf.typing`, not under `src/`); the spec calls it
an opaque handle, so it is represented by an arbitrary printable value. -/
abbrev Babel_Domain := String

/-- The slice of `current_app.config` consumed by `quart_wtf.meta`
(spec section 6); a `none` field means the key is absent from the mapping,
`some v` that it is present with value `v`. -/
structure AppConfig where
  wtf_csrf_enabled : Option Bool
  wtf_csrf_secret_key : Option String
  wtf_csrf_field_name : Option String
  wtf_csrf_time_limit : Option Nat
  wtf_i18n_domain : Option Babel_Domain
  wtf_i18n_enabled : Option Bool
  deriving DecidableEq

/-- The ambient application (`current_app`): its configuration, its
`secret_key` (which may be unset), and the entry `extensions["babel"]` of its
extensions mapping — `none` when the key is absent (a lookup raises
`KeyError`), `some b` when present with truthiness `b`. -/
structure QuartApp where
  config : AppConfig
  secret_key : Option String
  extensions_babel : Option Bool
  deriving DecidableEq

/-- Modelled from the spec: `DEFAULT_ENABLED` of `quart_wtf.const` (not under
`src/`); the spec gives the CSRF enabled default as true. -/
def DEFAULT_ENABLED : Bool := true

/-- Modelled from the spec: `DEFAULT_CSRF_FIELD_NAME` of `quart_wtf.const`
(not under `src/`); the spec only requires a fixed default field-name
constant. -/
def DEFAULT_CSRF_FIELD_NAME : String := "csrf_token"

/-- Modelled from the spec: `DEFAULT_CSRF_TIME_LIMIT` of `quart_wtf.const`
(not under `src/`); the spec only requires a fixed default integer number of
seconds. -/
def DEFAULT_CSRF_TIME_LIMIT : Nat := 3600

/-- The human-readable reason for a token that fails signature or structural
verification. -/
def MSG_TOKEN_INVALID : String := "The CSRF token is invalid."

/-- The human-readable reason for a missing token. -/
def MSG_TOKEN_MISSING : String := "The CSRF token is missing."

/-- The human-readable reason for an expired token. -/
def MSG_TOKEN_EXPIRED : String := "The CSRF token has expired."

/-- The message of the `KeyError` raised by `extensions["babel"]` when the
key is absent. -/
def MSG_KEYERROR_BABEL : String := "KeyError: babel"

/-- Modelled from the spec: the CSRF token of section 3 — an opaque signed
string with an embedded timestamp, keyed by the secret and the field name
used at signing time (the cryptographic construction itself is delegated and
out of scope, so a token records exactly what the signature binds). -/
structure CsrfToken where
  issued_at : Nat
  signed_secret : Option String
  signed_token_key : String
  deriving DecidableEq

/-- The content of the form field examined by validation: absent data, a
malformed string that is not a token at all, or a structurally well-formed
token. -/
inductive FieldData where
  | missing : FieldData
  | malformed : String → FieldData
  | token : CsrfToken → FieldData
  deriving DecidableEq

/-- Modelled from the spec: `generate_csrf` of `quart_wtf.utils` (not under
`src/`), the collaborator `sign(secret, field) → token` of spec section 6;
`now` is the clock reading embedded as the timestamp. -/
def generate_csrf (secret_key : Option String) (token_key : String) (now : Nat) :
    CsrfToken :=
  ⟨now, secret_key, token_key⟩

/-- Modelled from the spec: `validate_csrf` of `quart_wtf.utils` (not under
`src/`), the collaborator `verify(token, secret, limit, field)` of spec
section 6. It fails with a human-readable validation error on missing or
malformed data, on a signature mismatch (different secret or field name),
and on a token whose embedded timestamp is more than `time_limit` seconds
before `now`; otherwise it returns successfully. -/
def validate_csrf (data : FieldData) (secret_key : Option String)
    (time_limit : Nat) (token_key : String) (now : Nat) : Except String Unit :=
  match data with
  | .missing => .error MSG_TOKEN_MISSING
  | .malformed _ => .error MSG_TOKEN_INVALID
  | .token tok =>
    if tok.signed_secret = secret_key ∧ tok.signed_token_key = token_key then
      if now ≤ tok.issued_at + time_limit then
        .ok ()
      else
        .error MSG_TOKEN_EXPIRED
    else
      .error MSG_TOKEN_INVALID

namespace QuartFormMeta

/-- `QuartFormMeta.csrf`: `current_app.config.get("WTF_CSRF_ENABLED",
DEFAULT_ENABLED)`. -/
def csrf (app : QuartApp) : Bool :=
  app.config.wtf_csrf_enabled.getD DEFAULT_ENABLED

/-- `QuartFormMeta.csrf_secret`: `current_app.config.get("WTF_CSRF_SECRET_KEY",
current_app.secret_key)`. -/
def csrf_secret (app : QuartApp) : Option String :=
  match app.config.wtf_csrf_secret_key with
  | some s => some s
  | none => app.secret_key

/-- `QuartFormMeta.csrf_field_name`:
`current_app.config.get("WTF_CSRF_FIELD_NAME", DEFAULT_CSRF_FIELD_NAME)`. -/
def csrf_field_name (app : QuartApp) : String :=
  app.config.wtf_csrf_field_name.getD DEFAULT_CSRF_FIELD_NAME

/-- `QuartFormMeta.csrf_time_limit`:
`current_app.config.get("WTF_CSRF_TIME_LIMIT", DEFAULT_CSRF_TIME_LIMIT)`. -/
def csrf_time_limit (app : QuartApp) : Nat :=
  app.config.wtf_csrf_time_limit.getD DEFAULT_CSRF_TIME_LIMIT

/-- `QuartFormMeta.i18n_babel`: reads `current_app.extensions["babel"]` —
a `KeyError` when the key is absent — and otherwise returns the truthiness
of the entry (`if ...: return True` / `return False`). -/
def i18n_babel (app : QuartApp) : Except String Bool :=
  match app.extensions_babel with
  | none => .error MSG_KEYERROR_BABEL
  | some b => .ok b

/-- `QuartFormMeta.i18n_domain`:
`current_app.config.get("WTF_I18N_DOMAIN", None)`. -/
def i18n_domain (app : QuartApp) : Option Babel_Domain :=
  app.config.wtf_i18n_domain

/-- `QuartFormMeta.i18n_enabled`:
`current_app.config.get("WTF_I18N_ENABLED", True)`. -/
def i18n_enabled (app : QuartApp) : Bool :=
  app.config.wtf_i18n_enabled.getD true

/-- The value returned by `get_translations`: either the result delegated to
the superclass (`DefaultMeta.get_translations`), or the module-level
`translations` object of `quart_wtf.i18n` whose `domain` attribute was just
set to the given value. -/
inductive TranslationsProvider where
  | superDefault : TranslationsProvider
  | domainBound : Option Babel_Domain → TranslationsProvider
  deriving DecidableEq

/-- `QuartFormMeta.get_translations`: the second argument and the second
component of the result are the `domain` attribute of the module-level
`translations` object of `quart_wtf.i18n` before and after the call. The
Python body is `if not self.i18n_enabled or self.i18n_babel: return
super().get_translations(form)`, then `translations.domain =
self.i18n_domain; return translations`, with the short-circuit of `or`
shielding `i18n_babel` (and its possible `KeyError`) when the enabled flag
is false. -/
def get_translations (app : QuartApp) (translations_domain : Option Babel_Domain) :
    Except String TranslationsProvider × Option Babel_Domain :=
  if ¬ i18n_enabled app then
    (.ok .superDefault, translations_domain)
  else
    match i18n_babel app with
    | .error e => (.error e, translations_domain)
    | .ok true => (.ok .superDefault, translations_domain)
    | .ok false => (.ok (.domainBound (i18n_domain app)), i18n_domain app)

end QuartFormMeta

namespace _QuartFormCSRF

/-- `_QuartFormCSRF.generate_csrf_token`: delegates to `generate_csrf` with
the secret key and field name resolved from the meta (the form's ambient
application); `now` is the clock reading at generation time. -/
def generate_csrf_token (app : QuartApp) (now : Nat) : CsrfToken :=
  generate_csrf (QuartFormMeta.csrf_secret app) (QuartFormMeta.csrf_field_name app) now

/-- `_QuartFormCSRF.validate_csrf_token`: returns immediately when
`g.get("csrf_valid", False)` is set; otherwise delegates to `validate_csrf`
with the secret, time limit and field name resolved from the meta, and on a
validation error logs the error message at info level (`logger.info
(error.args[0])`) and re-raises it. The second component of the result is
the list of messages logged during the call. -/
def validate_csrf_token (app : QuartApp) (g_csrf_valid : Bool)
    (data : FieldData) (now : Nat) : Except String Unit × List String :=
  if g_csrf_valid then
    (.ok (), [])
  else
    match validate_csrf data (QuartFormMeta.csrf_secret app)
        (QuartFormMeta.csrf_time_limit app) (QuartFormMeta.csrf_field_name app) now with
    | .ok _ => (.ok (), [])
    | .error msg => (.error msg, [msg])

end _QuartFormCSRF

/-- Whether an `Except` result is a raised error. -/
def isErr (e : Except String Unit) : Bool :=
  match e with
  | .error _ => true
  | .ok _ => false

/-- A concrete application whose configuration has every key absent, with an
application-level secret key set and no babel extension registered. -/
def appAllAbsent : QuartApp :=
  { config := ⟨none, none, none, none, none, none⟩
    secret_key := some ("app-secret")
    extensions_babel := none }

/-- A concrete application whose configuration has every key present. -/
def appAllSet : QuartApp :=
  { config := ⟨some false, some ("configured-secret"), some ("edit_token"),
      some 120, some ("forms"), some false⟩
    secret_key := some ("app-secret")
    extensions_babel := some true }


/-- A concrete application with i18n enabled and a truthy babel extension
entry. -/
def appBabelOn : QuartApp :=
  { config := ⟨none, none, none, none, some ("forms"), some true⟩
    secret_key := none
    extensions_babel := some true }

/-- A concrete application with i18n enabled (by default) and a babel
extension entry that is present but falsy. -/
def appBabelFalsy : QuartApp :=
  { config := ⟨none, none, none, none, some ("forms"), none⟩
    secret_key := none
    extensions_babel := some false }

/-- A concrete application with i18n disabled and no babel extension entry. -/
def appNoBabelOff : QuartApp :=
  { config := ⟨none, none, none, none, none, some false⟩
    secret_key := none
    extensions_babel := none }

/-- C1: a token produced by `generate_csrf_token` under a meta with secret S
and field name F validates successfully under the same meta (same S and F)
when the pre-validated flag is unset and the elapsed time is within the
configured `csrf_time_limit`. -/
theorem claim_C1 (app : QuartApp) (issued now : Nat)
    (h : now ≤ issued + QuartFormMeta.csrf_time_limit app) :
    _QuartFormCSRF.validate_csrf_token app false
      (.token (_QuartFormCSRF.generate_csrf_token app issued)) now = (.ok (), []) := by
  simp [_QuartFormCSRF.validate_csrf_token, _QuartFormCSRF.generate_csrf_token,
    generate_csrf, validate_csrf, h]

/-- Witness for C1 at a concrete application and clock readings. -/
theorem claim_C1_witness :
    10 ≤ 0 + QuartFormMeta.csrf_time_limit appAllAbsent ∧
    _QuartFormCSRF.validate_csrf_token appAllAbsent false
      (.token (_QuartFormCSRF.generate_csrf_token appAllAbsent 0)) 10 = (.ok (), []) :=
  ⟨by decide, claim_C1 appAllAbsent 0 10 (by decide)⟩

/-- C2 counterexample: on an application whose i18n enabled flag is true but
whose babel extension entry is truthy, `get_translations` returns the
delegated superclass provider, not the alternate domain-bound provider —
so the enabled flag alone does not select the result. -/
theorem claim_C2_counterexample :
    QuartFormMeta.i18n_enabled appBabelOn = true ∧
    (QuartFormMeta.get_translations appBabelOn none).1 =
      .ok QuartFormMeta.TranslationsProvider.superDefault ∧
    QuartFormMeta.TranslationsProvider.superDefault ≠
      QuartFormMeta.TranslationsProvider.domainBound
        (QuartFormMeta.i18n_domain appBabelOn) :=
  ⟨rfl, rfl, by decide⟩

/-- C2 (amended): `get_translations` returns the delegated superclass
provider when the i18n enabled flag is false, and also when the flag is true
but the babel accessor yields true; it returns the alternate domain-bound
provider exactly when the flag is true and the babel accessor yields false —
the selection depends on both the enabled flag and the babel accessor. -/
theorem claim_C2 (a1 a2 a3 : QuartApp) (t1 t2 t3 : Option Babel_Domain)
    (h1 : QuartFormMeta.i18n_enabled a1 = false)
    (h2 : QuartFormMeta.i18n_enabled a2 = true)
    (h2b : QuartFormMeta.i18n_babel a2 = .ok true)
    (h3 : QuartFormMeta.i18n_enabled a3 = true)
    (h3b : QuartFormMeta.i18n_babel a3 = .ok false) :
    (QuartFormMeta.get_translations a1 t1).1 = .ok .superDefault ∧
    (QuartFormMeta.get_translations a2 t2).1 = .ok .superDefault ∧
    (QuartFormMeta.get_translations a3 t3).1 =
      .ok (.domainBound (QuartFormMeta.i18n_domain a3)) := by
  refine ⟨?_, ?_, ?_⟩ <;>
    simp [QuartFormMeta.get_translations, h1, h2, h2b, h3, h3b]

/-- Witness for C2 (amended) at three concrete applications. -/
theorem claim_C2_witness :
    (QuartFormMeta.get_translations appAllSet none).1 = .ok .superDefault ∧
    (QuartFormMeta.get_translations appBabelOn none).1 = .ok .superDefault ∧
    (QuartFormMeta.get_translations appBabelFalsy none).1 =
      .ok (.domainBound (QuartFormMeta.i18n_domain appBabelFalsy)) :=
  claim_C2 appAllSet appBabelOn appBabelFalsy none none none rfl rfl rfl rfl rfl

/-- C3: when the per-request pre-validated flag (`g.csrf_valid`) is set,
`validate_csrf_token` returns successfully, and logs nothing, for every
field content: missing, malformed or any token whatsoever. -/
theorem claim_C3 (app : QuartApp) (data : FieldData) (now : Nat) :
    _QuartFormCSRF.validate_csrf_token app true data now = (.ok (), []) := rfl

/-- C4 counterexample: `get_translations`, on an application selecting the
alternate provider, overwrites the `domain` attribute of the module-level
`translations` object — a request-spanning mutable object is written. -/
theorem claim_C4_counterexample :
    (QuartFormMeta.get_translations appBabelFalsy none).2 ≠ none := by decide

/-- C4 (amended): the configuration accessors are pure reads, and every call
to `get_translations` either leaves the module-level translation state
unchanged, or returns the alternate domain-bound provider and overwrites the
shared `translations.domain` attribute with the configured i18n domain —
the latter is the single write to state shared across requests. -/
theorem claim_C4 (app : QuartApp) (ts : Option Babel_Domain) :
    (QuartFormMeta.get_translations app ts).2 = ts ∨
    ((QuartFormMeta.get_translations app ts).1 =
        .ok (.domainBound (QuartFormMeta.i18n_domain app)) ∧
      (QuartFormMeta.get_translations app ts).2 = QuartFormMeta.i18n_domain app) := by
  by_cases he : QuartFormMeta.i18n_enabled app
  · cases hb : QuartFormMeta.i18n_babel app with
    | error e =>
      left
      simp [QuartFormMeta.get_translations, he, hb]
    | ok b =>
      cases b with
      | false =>
        right
        constructor <;> simp [QuartFormMeta.get_translations, he, hb]
      | true =>
        left
        simp [QuartFormMeta.get_translations, he, hb]
  · left
    simp [QuartFormMeta.get_translations, he]

/-- C5: each configuration accessor returns its documented default exactly
when its key is absent (CSRF enabled → `DEFAULT_ENABLED`, which is true;
field name → `DEFAULT_CSRF_FIELD_NAME`; time limit →
`DEFAULT_CSRF_TIME_LIMIT`; i18n enabled → true), and returns the configured
value when the key is present. -/
theorem claim_C5 (a b : QuartApp) (e : Bool) (f : String) (l : Nat) (i : Bool)
    (h1 : a.config.wtf_csrf_enabled = none)
    (h2 : a.config.wtf_csrf_field_name = none)
    (h3 : a.config.wtf_csrf_time_limit = none)
    (h4 : a.config.wtf_i18n_enabled = none)
    (g1 : b.config.wtf_csrf_enabled = some e)
    (g2 : b.config.wtf_csrf_field_name = some f)
    (g3 : b.config.wtf_csrf_time_limit = some l)
    (g4 : b.config.wtf_i18n_enabled = some i) :
    QuartFormMeta.csrf a = DEFAULT_ENABLED ∧ DEFAULT_ENABLED = true ∧
    QuartFormMeta.csrf_field_name a = DEFAULT_CSRF_FIELD_NAME ∧
    QuartFormMeta.csrf_time_limit a = DEFAULT_CSRF_TIME_LIMIT ∧
    QuartFormMeta.i18n_enabled a = true ∧
    QuartFormMeta.csrf b = e ∧
    QuartFormMeta.csrf_field_name b = f ∧
    QuartFormMeta.csrf_time_limit b = l ∧
    QuartFormMeta.i18n_enabled b = i := by
  simp [QuartFormMeta.csrf, QuartFormMeta.csrf_field_name,
    QuartFormMeta.csrf_time_limit, QuartFormMeta.i18n_enabled,
    DEFAULT_ENABLED, h1, h2, h3, h4, g1, g2, g3, g4]

/-- Witness for C5 at one fully-unset and one fully-set application. -/
theorem claim_C5_witness :
    QuartFormMeta.csrf appAllAbsent = DEFAULT_ENABLED ∧ DEFAULT_ENABLED = true ∧
    QuartFormMeta.csrf_field_name appAllAbsent = DEFAULT_CSRF_FIELD_NAME ∧
    QuartFormMeta.csrf_time_limit appAllAbsent = DEFAULT_CSRF_TIME_LIMIT ∧
    QuartFormMeta.i18n_enabled appAllAbsent = true ∧
    QuartFormMeta.csrf appAllSet = false ∧
    QuartFormMeta.csrf_field_name appAllSet = ("edit_token") ∧
    QuartFormMeta.csrf_time_limit appAllSet = 120 ∧
    QuartFormMeta.i18n_enabled appAllSet = false :=
  claim_C5 appAllAbsent appAllSet false ("edit_token") 120 false
    rfl rfl rfl rfl rfl rfl rfl rfl

/-- C6: `csrf_secret` returns the application secret key when the
`WTF_CSRF_SECRET_KEY` entry is absent, and the configured value when it is
present. -/
theorem claim_C6 (a b : QuartApp) (s : String)
    (h : a.config.wtf_csrf_secret_key = none)
    (g : b.config.wtf_csrf_secret_key = some s) :
    QuartFormMeta.csrf_secret a = a.secret_key ∧
    QuartFormMeta.csrf_secret b = some s := by
  constructor <;> simp [QuartFormMeta.csrf_secret, h, g]

/-- Witness for C6 at concrete applications. -/
theorem claim_C6_witness :
    QuartFormMeta.csrf_secret appAllAbsent = appAllAbsent.secret_key ∧
    QuartFormMeta.csrf_secret appAllSet = some ("configured-secret") :=
  claim_C6 appAllAbsent appAllSet ("configured-secret") rfl rfl

/-- C7: with the pre-validated flag unset, a token whose embedded timestamp
lies more than `csrf_time_limit` seconds in the past no longer validates:
`validate_csrf_token` raises a validation error. -/
theorem claim_C7 (app : QuartApp) (tok : CsrfToken) (now : Nat)
    (h : tok.issued_at + QuartFormMeta.csrf_time_limit app < now) :
    isErr (_QuartFormCSRF.validate_csrf_token app false (.token tok) now).1 = true := by
  have h' : ¬ now ≤ tok.issued_at + QuartFormMeta.csrf_time_limit app :=
    Nat.not_le.mpr h
  by_cases hsig : tok.signed_secret = QuartFormMeta.csrf_secret app ∧
      tok.signed_token_key = QuartFormMeta.csrf_field_name app
  · simp [_QuartFormCSRF.validate_csrf_token, validate_csrf, hsig, h', isErr]
  · simp [_QuartFormCSRF.validate_csrf_token, validate_csrf, hsig, isErr]

/-- Witness for C7: a token issued at time 0 under a 120-second limit is
rejected at time 1000. -/
theorem claim_C7_witness :
    (_QuartFormCSRF.generate_csrf_token appAllSet 0).issued_at +
        QuartFormMeta.csrf_time_limit appAllSet < 1000 ∧
    isErr (_QuartFormCSRF.validate_csrf_token appAllSet false
      (.token (_QuartFormCSRF.generate_csrf_token appAllSet 0)) 1000).1 = true :=
  ⟨by decide,
    claim_C7 appAllSet (_QuartFormCSRF.generate_csrf_token appAllSet 0) 1000 (by decide)⟩

/-- C8: with the pre-validated flag unset, a token generated under a secret
different from the secret the validating meta resolves fails validation with
an error. -/
theorem claim_C8 (app : QuartApp) (s : Option String) (f : String)
    (issued now : Nat) (hne : s ≠ QuartFormMeta.csrf_secret app) :
    isErr (_QuartFormCSRF.validate_csrf_token app false
      (.token (generate_csrf s f issued)) now).1 = true := by
  have hsig : ¬ ((generate_csrf s f issued).signed_secret =
        QuartFormMeta.csrf_secret app ∧
      (generate_csrf s f issued).signed_token_key =
        QuartFormMeta.csrf_field_name app) := by
    intro hc
    exact hne hc.1
  simp [_QuartFormCSRF.validate_csrf_token, validate_csrf, hsig, isErr]

/-- Witness for C8 at concrete secrets. -/
theorem claim_C8_witness :
    some ("other-secret") ≠ QuartFormMeta.csrf_secret appAllSet ∧
    isErr (_QuartFormCSRF.validate_csrf_token appAllSet false
      (.token (generate_csrf (some ("other-secret")) ("edit_token") 0)) 0).1 = true :=
  ⟨by decide,
    claim_C8 appAllSet (some ("other-secret")) ("edit_token") 0 0 (by decide)⟩

/-- C9: with the pre-validated flag unset, `validate_csrf_token` delegates
to `validate_csrf` and is faithful to its outcome: a validation failure is
logged at info level with exactly its human-readable reason and re-raised
unchanged to the caller (never swallowed, and no error of any other kind or
message is raised), while a success returns with nothing logged. -/
theorem claim_C9 (app : QuartApp) (d1 d2 : FieldData) (n1 n2 : Nat) (msg : String)
    (h1 : validate_csrf d1 (QuartFormMeta.csrf_secret app)
        (QuartFormMeta.csrf_time_limit app) (QuartFormMeta.csrf_field_name app) n1 =
      .error msg)
    (h2 : validate_csrf d2 (QuartFormMeta.csrf_secret app)
        (QuartFormMeta.csrf_time_limit app) (QuartFormMeta.csrf_field_name app) n2 =
      .ok ()) :
    _QuartFormCSRF.validate_csrf_token app false d1 n1 = (.error msg, [msg]) ∧
    _QuartFormCSRF.validate_csrf_token app false d2 n2 = (.ok (), []) := by
  constructor <;> simp [_QuartFormCSRF.validate_csrf_token, h1, h2]

/-- Witness for C9: a missing token is re-raised with its reason logged, and
a fresh valid token succeeds with nothing logged. -/
theorem claim_C9_witness :
    validate_csrf FieldData.missing (QuartFormMeta.csrf_secret appAllAbsent)
        (QuartFormMeta.csrf_time_limit appAllAbsent)
        (QuartFormMeta.csrf_field_name appAllAbsent) 0 = .error MSG_TOKEN_MISSING ∧
    _QuartFormCSRF.validate_csrf_token appAllAbsent false FieldData.missing 0 =
      (.error MSG_TOKEN_MISSING, [MSG_TOKEN_MISSING]) ∧
    _QuartFormCSRF.validate_csrf_token appAllAbsent false
      (.token (_QuartFormCSRF.generate_csrf_token appAllAbsent 0)) 0 = (.ok (), []) :=
  ⟨rfl,
    (claim_C9 appAllAbsent FieldData.missing
      (.token (_QuartFormCSRF.generate_csrf_token appAllAbsent 0)) 0 0
      MSG_TOKEN_MISSING rfl (by simp [validate_csrf, _QuartFormCSRF.generate_csrf_token,
        generate_csrf])).1,
    (claim_C9 appAllAbsent FieldData.missing
      (.token (_QuartFormCSRF.generate_csrf_token appAllAbsent 0)) 0 0
      MSG_TOKEN_MISSING rfl (by simp [validate_csrf, _QuartFormCSRF.generate_csrf_token,
        generate_csrf])).2⟩

/-- C10 counterexample: on an application where the babel extension was
never registered but the i18n enabled flag is false, `get_translations`
does not fail — it falls back to the delegated superclass provider — so
`get_translations` does not fail on every babel-less application. -/
theorem claim_C10_counterexample :
    appNoBabelOff.extensions_babel = none ∧
    (QuartFormMeta.get_translations appNoBabelOff none).1 =
      .ok QuartFormMeta.TranslationsProvider.superDefault :=
  ⟨rfl, rfl⟩

/-- C10 (amended): when the extensions mapping has no babel entry,
`i18n_babel` does not return false but raises a `KeyError`; consequently, on
such an application, `get_translations` propagates that lookup failure
exactly when the i18n enabled flag is true (the default) — with the flag
false it still returns the delegated default provider. -/
theorem claim_C10 (app : QuartApp) (ts : Option Babel_Domain)
    (h : app.extensions_babel = none) :
    QuartFormMeta.i18n_babel app = .error MSG_KEYERROR_BABEL ∧
    ((QuartFormMeta.get_translations app ts).1 = .error MSG_KEYERROR_BABEL ↔
      QuartFormMeta.i18n_enabled app = true) := by
  have hb : QuartFormMeta.i18n_babel app = .error MSG_KEYERROR_BABEL := by
    simp [QuartFormMeta.i18n_babel, h]
  refine ⟨hb, ?_⟩
  by_cases he : QuartFormMeta.i18n_enabled app
  · simp [QuartFormMeta.get_translations, he, hb]
  · simp [QuartFormMeta.get_translations, he]

/-- Witness for C10 (amended) at a concrete babel-less application with the
default (true) i18n enabled flag. -/
theorem claim_C10_witness :
    appAllAbsent.extensions_babel = none ∧
    QuartFormMeta.i18n_babel appAllAbsent = .error MSG_KEYERROR_BABEL ∧
    ((QuartFormMeta.get_translations appAllAbsent none).1 =
        .error MSG_KEYERROR_BABEL ↔
      QuartFormMeta.i18n_enabled appAllAbsent = true) :=
  ⟨rfl, (claim_C10 appAllAbsent none rfl).1, (claim_C10 appAllAbsent none rfl).2⟩

end QuartWtf
